import Mathlib

/-!
Shallow embedding of the request/session layer of the yamintapi Mint
client (src/yamintapi/mint.py), covering transaction cleaning, the
transaction sort-code table, the delete-transaction guard, the per-session
memo caches, cookie handling of the financial-provider call, the
offset-based pagination generator, response failure classification,
category name resolution, category mutation guards, and transaction id
normalization.  Python dicts of fixed shape become structures, Python
floats become rationals, exceptions become Except or Option values, and
HTTP traffic is made explicit: remote behaviour is an input (a function or
a value) and issued requests are collected in a list.
-/

namespace Yamintapi

/-- A decimal number in canonical form: the value mant divided by ten to
the exp, with mant not divisible by ten unless exp is zero, so that equal
values have equal representations.  The float amounts of the client are
modelled by these exact decimals: the only arithmetic the cleaning step
performs on them is parsing a decimal literal and flipping the sign, and
both are exact in floating point as well. -/
structure DecimalAmount where
  mant : Int
  exp : Nat
deriving DecidableEq

/-- Strip factors of ten from the mantissa into the exponent until the
representation is canonical. -/
def canonAux : Int → Nat → Int × Nat
  | m, 0 => (m, 0)
  | m, e + 1 => if m % 10 == 0 then canonAux (m / 10) e else (m, e + 1)

/-- Build the canonical decimal with the given mantissa and exponent. -/
def DecimalAmount.canon (m : Int) (e : Nat) : DecimalAmount :=
  { mant := (canonAux m e).1, exp := (canonAux m e).2 }

/-- Negation of a decimal amount (canonical form is preserved). -/
def DecimalAmount.neg (a : DecimalAmount) : DecimalAmount :=
  { a with mant := -a.mant }

/-- An amount-like field of a raw transaction record: the server sends the
amount as a formatted string, and cleaning replaces it with a number. -/
inductive TxnValue where
  | str (s : String)
  | num (q : DecimalAmount)
deriving DecidableEq

/-- The fields of a raw transaction record that _clean_transaction reads or
writes: the two date fields (strings before and after cleaning), the
amount, and the debit flag. -/
structure RawTransaction where
  date : String
  odate : String
  amount : TxnValue
  isDebit : Bool
deriving DecidableEq

/-- Numeric value of a list of decimal digit characters. -/
def digitsToNat (l : List Char) : Nat :=
  l.foldl (fun a c => a * 10 + (c.toNat - 48)) 0

/-- Python float(s) on the plain decimal literals produced by the amount
pipeline: optional sign, integer digits, optional dot and fraction digits,
at least one digit overall.  Returns none where Python float() raises
ValueError.  Exponent forms and the special values never occur in the
dollar-amount strings this is applied to and are not modelled. -/
def pyFloat (s : String) : Option DecimalAmount :=
  let go : List Char → Option DecimalAmount := fun cs =>
    let intPart := cs.takeWhile Char.isDigit
    let rest := cs.dropWhile Char.isDigit
    match rest with
    | [] =>
      if intPart.isEmpty then none
      else some (DecimalAmount.canon (digitsToNat intPart : Int) 0)
    | '.' :: frac =>
      if frac.all Char.isDigit && !(intPart.isEmpty && frac.isEmpty) then
        some (DecimalAmount.canon (digitsToNat (intPart ++ frac) : Int) frac.length)
      else none
    | _ => none
  match s.toList with
  | '-' :: cs => (go cs).map DecimalAmount.neg
  | '+' :: cs => go cs
  | cs => go cs

/-- Python str.strip applied with the dollar sign: removes every leading
and trailing dollar character. -/
def stripDollar (s : String) : String :=
  String.mk (((s.toList.dropWhile (fun c => c == '$')).reverse.dropWhile
    (fun c => c == '$')).reverse)

/-- The three-letter month abbreviations matched by the strptime month
directive in fix_date. -/
def monthAbbrevs : List String :=
  ["Jan", "Feb", "Mar", "Apr", "May", "Jun", "Jul", "Aug", "Sep", "Oct", "Nov", "Dec"]

/-- Left-pad a number below 100 to two digits, as the strftime month, day
and short-year directives do. -/
def pad2 (n : Nat) : String :=
  if n < 10 then "0" ++ toString n else toString n

/-- fix_date from _clean_transaction: a date string that already contains a
slash is returned unchanged; otherwise the string (month abbreviation,
space, day) has the current year appended, is parsed by strptime, and is
reformatted as mm/dd/yy.  A parse failure (ValueError) is none. -/
def fix_date (year : Nat) (s : String) : Option String :=
  if s.toList.contains '/' then some s
  else
    match s.splitOn " " with
    | [mon, dayStr] =>
      match monthAbbrevs.findIdx? (fun m => m == mon) with
      | some mIdx =>
        if !dayStr.toList.isEmpty && dayStr.toList.all Char.isDigit then
          let d := digitsToNat dayStr.toList
          if 1 ≤ d ∧ d ≤ 31 then
            some (pad2 (mIdx + 1) ++ "/" ++ pad2 d ++ "/" ++ pad2 (year % 100))
          else none
        else none
      | none => none
    | _ => none

/-- Python str.replace applied with a comma and the empty string: every
comma is removed. -/
def removeCommas (s : String) : String :=
  String.mk (s.toList.filter (fun c => !(c == ',')))

/-- _clean_transaction: fixes the date and odate fields, then converts the
amount string (dollar signs stripped, comma separators removed, parsed as
a float) to a number, multiplied by minus one when isDebit is set.  A
numeric amount has no strip method, so Python raises AttributeError on it;
that failure, like a ValueError from an unparsable date or amount, is
modelled as none.  The current year used for abbreviated dates is an
explicit argument. -/
def _clean_transaction (year : Nat) (t : RawTransaction) : Option RawTransaction := do
  let d ← fix_date year t.date
  let od ← fix_date year t.odate
  let s ← match t.amount with
    | TxnValue.str s => some s
    | TxnValue.num _ => none
  let q ← pyFloat (removeCommas (stripDollar s))
  some { t with date := d, odate := od,
                amount := TxnValue.num (if t.isDebit then q.neg else q) }

/-- The comparableType table at the top of get_transactions.  The Python
dict literal lists the key (category, true) twice, once with value 2 and
once with value 6; dict literal semantics keep the later entry, so
(category, true) maps to 6 and (category, false) is absent from the
table. -/
def comparableType (sort_field : String) (sort_ascending : Bool) : Option Nat :=
  if sort_field == "date" && sort_ascending then some 4
  else if sort_field == "date" && !sort_ascending then some 8
  else if sort_field == "amount" && sort_ascending then some 7
  else if sort_field == "amount" && !sort_ascending then some 3
  else if sort_field == "merchant" && sort_ascending then some 1
  else if sort_field == "merchant" && !sort_ascending then some 5
  else if sort_field == "category" && sort_ascending then some 6
  else none

/-- The start of get_transactions: the sort code is resolved first and a
missing table entry raises ValueError before any request parameters are
built or any request is issued. -/
def get_transactions_checkSort (sort_field : String) (sort_ascending : Bool) :
    Except String Nat :=
  match comparableType sort_field sort_ascending with
  | some c => Except.ok c
  | none => Except.error "sort field and ascending combination is not supported"

/-- An HTTP request issued through the session, classified by whether it
mutates server state. -/
inductive MintRequest where
  | read (endpoint : String)
  | mutate (endpoint : String)
deriving DecidableEq

/-- Whether a request is a mutating one. -/
def MintRequest.isMutate : MintRequest → Bool
  | MintRequest.read _ => false
  | MintRequest.mutate _ => true

/-- The fields of a transaction record that the delete_transaction guard
reads. -/
structure TxnRecord where
  isPending : Bool
  account : String
deriving DecidableEq

/-- delete_transaction: it first fetches the transaction through
get_transaction_by_id, which issues one read request to
listSplitTransactions.xevent; it then raises RuntimeError unless the
transaction is pending or its account is Cash, and only then posts the
delete task to updateTransaction.xevent.  The server is an input: lookup
gives the fetched record (none models a transaction id the listing does
not contain, on which the Python subscript raises), and deleteOk gives the
outcome of comparing the delete response task field.  The returned list
collects every request issued, in order. -/
def delete_transaction (lookup : String → Option TxnRecord) (deleteOk : Bool)
    (transaction_id : String) : Except String Bool × List MintRequest :=
  let lookupReqs : List MintRequest := [MintRequest.read "listSplitTransactions.xevent"]
  match lookup transaction_id with
  | none => (Except.error "transaction not found", lookupReqs)
  | some fetched =>
    if !fetched.isPending && !(fetched.account == "Cash") then
      (Except.error "not a pending or cash transaction", lookupReqs)
    else
      (Except.ok deleteOk, lookupReqs ++ [MintRequest.mutate "updateTransaction.xevent"])

/-- A category tree node as returned by get_categories: id, name, the name
and id of the parent node, and the depth in the tree. -/
structure Category where
  id : Nat
  name : String
  parentName : String
  parentId : Nat
  depth : Nat
deriving DecidableEq

/-- The two per-session memo caches (the lru_cache decorators on
get_categories and get_tags); none models a cleared cache.  Tags are
reduced to their names, which is all the cache claims need. -/
structure CacheState where
  categoriesCache : Option (List Category)
  tagsCache : Option (List String)
deriving DecidableEq

/-- get_categories under lru_cache: a cached listing is returned as is;
otherwise the server listing is fetched and stored in the cache. -/
def get_categories_cached (server : List Category) (s : CacheState) :
    List Category × CacheState :=
  match s.categoriesCache with
  | some v => (v, s)
  | none => (server, { s with categoriesCache := some server })

/-- get_tags under lru_cache, as for get_categories_cached. -/
def get_tags_cached (server : List String) (s : CacheState) :
    List String × CacheState :=
  match s.tagsCache with
  | some v => (v, s)
  | none => (server, { s with tagsCache := some server })

/-- Cache effect of login: its final lines call cache_clear on both
get_categories and get_tags. -/
def login_cache_effect (_s : CacheState) : CacheState :=
  { categoriesCache := none, tagsCache := none }

/-- Cache effect of create_category: it reads the category listing through
_get_category_by_id (filling the cache when it is cold) and never clears
the cache. -/
def create_category_cache_effect (server : List Category) (s : CacheState) : CacheState :=
  (get_categories_cached server s).2

/-- Cache effect of rename_category: same listing read, no clearing. -/
def rename_category_cache_effect (server : List Category) (s : CacheState) : CacheState :=
  (get_categories_cached server s).2

/-- Cache effect of delete_category: same listing read, no clearing. -/
def delete_category_cache_effect (server : List Category) (s : CacheState) : CacheState :=
  (get_categories_cached server s).2

/-- Cache effect of create_tag: it reads the tag listing through get_tags
for its duplicate-name check and never clears the cache. -/
def create_tag_cache_effect (server : List String) (s : CacheState) : CacheState :=
  (get_tags_cached server s).2

/-- A requests cookie jar, reduced to its key-value pairs. -/
abbrev CookieJar := List (String × String)

/-- The Python object graph relevant to cookie handling: a heap of cookie
jar objects addressed by position, and the address of the jar the current
session holds.  Attribute assignment copies addresses, never jars, exactly
as Python reference assignment does. -/
structure SessionHeap where
  jars : List CookieJar
  sessionJar : Nat
deriving DecidableEq

/-- The jar the session currently refers to. -/
def jarAt (s : SessionHeap) : CookieJar :=
  s.jars.getD s.sessionJar []

/-- _init_session: builds a fresh requests.Session (whose jar is a new
empty object) and, when a cookies argument is given, rebinds the session
cookies attribute to that existing jar object. -/
def _init_session (s : SessionHeap) (cookies : Option Nat) : SessionHeap :=
  let s1 : SessionHeap := { jars := s.jars ++ [[]], sessionJar := s.jars.length }
  match cookies with
  | some addr => { s1 with sessionJar := addr }
  | none => s1

/-- One session.request call: the requests library merges response cookies
into the session jar in place, so the jar object at the session address is
updated; the mutation the remote service performs is an input. -/
def sessionRequest (mutate : CookieJar → CookieJar) (s : SessionHeap) : SessionHeap :=
  { s with jars := s.jars.set s.sessionJar (mutate (jarAt s)) }

/-- _get_financial_provider_response, cookie-relevant part: prev_cookies
binds the address of the session jar, the request runs (mutating that
jar in place), and _init_session is called with prev_cookies to put the
saved jar back on a fresh session. -/
def _get_financial_provider_response (mutate : CookieJar → CookieJar)
    (s : SessionHeap) : SessionHeap :=
  let prev_cookies := s.sessionJar
  let s1 := sessionRequest mutate s
  _init_session s1 (some prev_cookies)

/-- _get_jsondata_response_generator: starting from the caller-supplied
offset, each loop iteration issues one request for the page at the current
offset, yields its rows, advances the offset by the number of rows
received, and stops after a page with no rows.  The server is an input
mapping an offset to the rows of the transactions entry of the response.
The result pairs the yielded rows, in order, with the number of requests
issued.  The Python loop has no bound, so a fuel argument caps the number
of iterations; every claim is settled at a fuel larger than the number of
pages involved. -/
def _get_jsondata_response_generator (server : Nat → List Nat) :
    Nat → Nat → List Nat × Nat
  | 0, _ => ([], 0)
  | fuel + 1, offset =>
    let results := server offset
    if results.isEmpty then ([], 1)
    else
      let rest := _get_jsondata_response_generator server fuel (offset + results.length)
      (results ++ rest.1, rest.2 + 1)

/-- A server whose pages, from offset 0, have sizes 100, 100, 37 and 0,
with the rows numbered 0 to 236 in order. -/
def pagesServer : Nat → List Nat := fun offset =>
  if offset = 0 then (List.range 237).take 100
  else if offset = 100 then ((List.range 237).drop 100).take 100
  else if offset = 200 then (List.range 237).drop 200
  else []

/-- The response fields _get_json_response inspects: status code, content
type header, and body text. -/
structure HttpResponse where
  status : Nat
  contentType : String
  body : String
deriving DecidableEq

/-- Outcome of _get_json_response: the distinct session-expired exception,
the generic RuntimeError, or the body handed on to json.loads (html
unescaping and JSON decoding of a successful body happen after the failure
classification and are outside it). -/
inductive JsonResult where
  | sessionExpired
  | requestError
  | parsed (text : String)
deriving DecidableEq

/-- Whether the first character list is an initial segment of the
second. -/
def leadsWith : List Char → List Char → Bool
  | [], _ => true
  | _ :: _, [] => false
  | a :: as, b :: bs => a == b && leadsWith as bs

/-- Whether the needle occurs as a contiguous run inside the haystack. -/
def hasSubstring (needle : List Char) : List Char → Bool
  | [] => needle.isEmpty
  | c :: rest => leadsWith needle (c :: rest) || hasSubstring needle rest

/-- The Python in operator on strings. -/
def containsSubstr (needle hay : String) : Bool :=
  hasSubstring needle.toList hay.toList

/-- Python str.lower on the ASCII response bodies involved here. -/
def lowerAscii (s : String) : String :=
  String.mk (s.toList.map Char.toLower)

/-- The content-type test of _get_json_response: re.match anchors at the
start, so the header must start with text/json or application/json. -/
def isJsonContentType (ct : String) : Bool :=
  leadsWith "text/json".toList ct.toList || leadsWith "application/json".toList ct.toList

/-- _get_json_response, failure classification: a response fails when its
status is not 200 or, when JSON is expected, its content type is not a
JSON one; a failing response whose lowercased body contains the phrase
session has expired raises MintSessionExpiredException, any other failing
response raises RuntimeError, and a non-failing response is passed on to
parsing. -/
def _get_json_response (expect_json : Bool) (r : HttpResponse) : JsonResult :=
  if r.status != 200 || (expect_json && !isJsonContentType r.contentType) then
    if containsSubstr "session has expired" (lowerAscii r.body) then
      JsonResult.sessionExpired
    else
      JsonResult.requestError
  else
    JsonResult.parsed r.body

/-- Decidable equality for Except results, so concrete runs of the
embedded operations can be settled by decide. -/
instance {ε α : Type} [DecidableEq ε] [DecidableEq α] : DecidableEq (Except ε α) := fun a b =>
  match a, b with
  | Except.error e, Except.error f =>
    if h : e = f then Decidable.isTrue (congrArg Except.error h)
    else Decidable.isFalse fun hh => h (Except.error.inj hh)
  | Except.ok x, Except.ok y =>
    if h : x = y then Decidable.isTrue (congrArg Except.ok h)
    else Decidable.isFalse fun hh => h (Except.ok.inj hh)
  | Except.error _, Except.ok _ => Decidable.isFalse fun hh => Except.noConfusion hh
  | Except.ok _, Except.error _ => Decidable.isFalse fun hh => Except.noConfusion hh

/-- The two local failure kinds of category_name_to_id. -/
inductive CategoryError where
  | ambiguous
  | notExist
deriving DecidableEq

/-- category_name_to_id: filter the listing to the requested name; with no
parent name given and more than one match, raise the ambiguity error;
otherwise take the first match whose parent name agrees with the given one
(any match when no parent name is given) and return its id; a falsy result
(no match, or the id 0, by Python truthiness) raises the does-not-exist
error.  An absent parent_category_name models the Python default None. -/
def category_name_to_id (allCategories : List Category) (category_name : String)
    (parent_category_name : Option String) : Except CategoryError Nat :=
  let categories := allCategories.filter (fun c => c.name == category_name)
  if parent_category_name.isNone && decide (1 < categories.length) then
    Except.error CategoryError.ambiguous
  else
    match (categories.find? (fun c =>
        parent_category_name.isNone || (some c.parentName == parent_category_name))).map
        (fun c => c.id) with
    | some r => if r == 0 then Except.error CategoryError.notExist else Except.ok r
    | none => Except.error CategoryError.notExist

/-- _get_category_by_id: the first category of the listing with the given
id; none models the RuntimeError raised when the id does not occur. -/
def _get_category_by_id (categories : List Category) (category_id : Nat) :
    Option Category :=
  (categories.filter (fun c => c.id == category_id)).head?

/-- rename_category: looks the category up in the (memoized) listing,
raises for ids below 10000, and only then posts task U to
updateCategory.xevent through _get_category_response; that helper posts
first and then parses a catId element out of the response, raising
RuntimeError when the parse fails, so the mutating request appears in the
log in either case.  respCatId is the parsed server response; the request
log records mutating requests (the listing read may be served from the
memo cache). -/
def rename_category (categories : List Category) (respCatId : Option Nat)
    (category_id : Nat) (_name : String) : Except String Bool × List MintRequest :=
  match _get_category_by_id categories category_id with
  | none => (Except.error "category seems to not exist", [])
  | some _category =>
    if category_id < 10000 then
      (Except.error "cannot change a non-user category", [])
    else
      match respCatId with
      | some c => (Except.ok (decide (0 < c)), [MintRequest.mutate "updateCategory.xevent"])
      | none => (Except.error "received unexpected response",
                 [MintRequest.mutate "updateCategory.xevent"])

/-- delete_category: same lookup and id-threshold guard as
rename_category, then posts task D to updateCategory.xevent. -/
def delete_category (categories : List Category) (respCatId : Option Nat)
    (category_id : Nat) : Except String Bool × List MintRequest :=
  match _get_category_by_id categories category_id with
  | none => (Except.error "category seems to not exist", [])
  | some _category =>
    if category_id < 10000 then
      (Except.error "cannot change a non-user category", [])
    else
      match respCatId with
      | some c => (Except.ok (decide (0 < c)), [MintRequest.mutate "updateCategory.xevent"])
      | none => (Except.error "received unexpected response",
                 [MintRequest.mutate "updateCategory.xevent"])

/-- create_category: looks up the designated parent category, raises
unless its depth is 1, and only then posts task C to
updateCategory.xevent, returning the new category id parsed from the
response. -/
def create_category (categories : List Category) (respCatId : Option Nat)
    (_name : String) (parent_category_id : Nat) : Except String Nat × List MintRequest :=
  match _get_category_by_id categories parent_category_id with
  | none => (Except.error "category seems to not exist", [])
  | some parent_category =>
    if parent_category.depth ≠ 1 then
      (Except.error "can only create a category under a depth-1 category", [])
    else
      match respCatId with
      | some c => (Except.ok c, [MintRequest.mutate "updateCategory.xevent"])
      | none => (Except.error "received unexpected response",
                 [MintRequest.mutate "updateCategory.xevent"])

/-- The txnId field built by update_transaction: each id of the list gets
a cash/credit type suffix appended when it has no colon, is kept unchanged
otherwise, and the results are comma-joined. -/
def update_transaction_txnId (trans_ids : List String) : String :=
  String.intercalate "," (trans_ids.map (fun i =>
    if !(i.toList.contains ':') then i ++ ":0" else i))

/-- The full transaction id built by split_transaction: kept when it
contains a colon, suffixed otherwise. -/
def split_transaction_fullTransId (transaction_id : String) : String :=
  if transaction_id.toList.contains ':' then transaction_id else transaction_id ++ ":0"

/-- The full transaction id built by delete_transaction before posting the
delete task. -/
def delete_transaction_fullId (transaction_id : String) : String :=
  if !(transaction_id.toList.contains ':') then transaction_id ++ ":0" else transaction_id

/-- The full transaction id built by get_transaction_by_id. -/
def get_transaction_by_id_fullTransId (transaction_id : String) : String :=
  if !(transaction_id.toList.contains ':') then transaction_id ++ ":0" else transaction_id

/-- A raw transaction as the server sends it: slash dates and a formatted
dollar amount string, flagged as a debit. -/
def c1RawExample : RawTransaction :=
  { date := "02/03/25", odate := "01/31/25",
    amount := TxnValue.str "$1,234.56", isDebit := true }

/-- The same record after one cleaning pass: the amount is now the number
minus 1234.56. -/
def c1CleanedExample : RawTransaction :=
  { date := "02/03/25", odate := "01/31/25",
    amount := TxnValue.num { mant := -123456, exp := 2 }, isDebit := true }

/-- A server on which every transaction id resolves to a posted (not
pending) transaction of an ordinary bank account. -/
def c3Lookup : String → Option TxnRecord := fun _ =>
  some { isPending := false, account := "Checking" }

/-- A user category already in the cached listing. -/
def c4CatOld : Category :=
  { id := 10001, name := "Old", parentName := "Root", parentId := 14, depth := 2 }

/-- A category the server added after the cache was filled. -/
def c4CatNew : Category :=
  { id := 10002, name := "New", parentName := "Root", parentId := 14, depth := 2 }

/-- A session whose listings have been memoized before the mutation. -/
def c4State : CacheState :=
  { categoriesCache := some [c4CatOld], tagsCache := some ["old"] }

/-- A session holding one cookie jar with one server-assigned cookie. -/
def c5Session : SessionHeap :=
  { jars := [[("sid", "abc")]], sessionJar := 0 }

/-- A successful JSON response whose body happens to contain the expiry
phrase; json.loads would parse it without error. -/
def c7OkExpiredResponse : HttpResponse :=
  { status := 200, contentType := "application/json",
    body := "\x7b\"error\": \"Session has expired\"\x7d" }

/-- A failing response carrying the expiry phrase. -/
def c7FailingExpiredResponse : HttpResponse :=
  { status := 500, contentType := "text/html", body := "Your session has expired." }

/-- A failing response without the expiry phrase. -/
def c7FailingOtherResponse : HttpResponse :=
  { status := 500, contentType := "text/html", body := "internal error" }

/-- An ordinary successful JSON response. -/
def c7OkJsonResponse : HttpResponse :=
  { status := 200, contentType := "application/json", body := "[]" }

/-- A category named Transfer under the parent Root1. -/
def c8Transfer1 : Category :=
  { id := 11, name := "Transfer", parentName := "Root1", parentId := 1, depth := 2 }

/-- A second category also named Transfer, under the parent Root2. -/
def c8Transfer2 : Category :=
  { id := 12, name := "Transfer", parentName := "Root2", parentId := 2, depth := 2 }

/-- A listing holding two same-named categories with different parents. -/
def c8Categories : List Category :=
  [c8Transfer1, c8Transfer2]

/-- A listing holding one system category (id below 10000, depth 2). -/
def c9Categories : List Category :=
  [{ id := 708, name := "Groceries", parentName := "Food", parentId := 7, depth := 2 }]

/-- C1, amended: the date normalization inside _clean_transaction is
idempotent (a date already containing a slash passes through unchanged),
but cleaning a whole record is not idempotent: an already-cleaned record
carries a numeric amount, and cleaning fails on a numeric amount (the
strip call raises AttributeError) instead of leaving it unaffected. -/
theorem c1_clean_transaction_partial_idempotence :
    (∀ (year : Nat) (s : String), s.toList.contains '/' = true → fix_date year s = some s) ∧
    (∀ (year : Nat) (t : RawTransaction) (q : DecimalAmount), t.amount = TxnValue.num q →
      _clean_transaction year t = none) := by
  constructor
  · intro year s h
    have hm : '/' ∈ s.data := by simpa using h
    simp [fix_date, hm]
  · intro year t q h
    cases hd : fix_date year t.date with
    | none => simp [_clean_transaction, hd]
    | some d =>
      cases hod : fix_date year t.odate with
      | none => simp [_clean_transaction, hd, hod]
      | some od => simp [_clean_transaction, hd, hod, h]



/-- C1 counterexample: cleaning an already-cleaned record does not yield
the same record; on this concrete record one cleaning pass succeeds, and a
second pass fails (none) rather than returning the record unchanged, so
the numeric amount is not unaffected. -/
theorem c1_counterexample :
    _clean_transaction 2026 c1RawExample = some c1CleanedExample ∧
    _clean_transaction 2026 c1CleanedExample ≠ some c1CleanedExample := by
  constructor
  · decide
  · decide

/-- Witness for C1: the amended theorem applied at a concrete slash date
and at a concrete record with a numeric amount. -/
theorem c1_witness :
    fix_date 2026 "12/25/26" = some "12/25/26" ∧
    _clean_transaction 2026
      { date := "09/01/26", odate := "09/01/26",
        amount := TxnValue.num { mant := 5, exp := 0 }, isDebit := false } = none :=
  ⟨c1_clean_transaction_partial_idempotence.1 2026 "12/25/26" (by decide),
   c1_clean_transaction_partial_idempotence.2 2026
     { date := "09/01/26", odate := "09/01/26",
       amount := TxnValue.num { mant := 5, exp := 0 }, isDebit := false }
     { mant := 5, exp := 0 } rfl⟩

/-- C2: the sort-code mapping of get_transactions is a pure function given
by the table below, but the supported pairs are not the full eight of the
claim: the duplicated dict key (category, true) leaves category ascending
at 6 (the 2 entry is overwritten) and makes category descending unmapped,
so get_transactions with sort_field category and sort_ascending false
raises ValueError before issuing any request instead of mapping to a sort
code. -/
theorem c2_sort_code_table :
    comparableType "date" true = some 4 ∧
    comparableType "date" false = some 8 ∧
    comparableType "amount" true = some 7 ∧
    comparableType "amount" false = some 3 ∧
    comparableType "merchant" true = some 1 ∧
    comparableType "merchant" false = some 5 ∧
    comparableType "category" true = some 6 ∧
    comparableType "category" false = none ∧
    get_transactions_checkSort "category" false =
      Except.error "sort field and ascending combination is not supported" := by
  decide

/-- C3, amended: deleting a transaction that is neither pending nor a cash
transaction raises the validation error before the mutating delete request
is issued (no mutating request appears in the log), but not before any
network request: one read request is issued first to fetch the transaction
being checked. -/
theorem c3_delete_guard_no_mutating_request :
    ∀ (lookup : String → Option TxnRecord) (deleteOk : Bool) (tid : String)
      (t : TxnRecord), lookup tid = some t → t.isPending = false → t.account ≠ "Cash" →
      (∃ e, delete_transaction lookup deleteOk tid =
        (Except.error e, [MintRequest.read "listSplitTransactions.xevent"])) ∧
      ∀ r ∈ (delete_transaction lookup deleteOk tid).2, r.isMutate = false := by
  intro lookup deleteOk tid t hl hp ha
  have hacc : (t.account == "Cash") = false := beq_eq_false_iff_ne.mpr ha
  have hrun : delete_transaction lookup deleteOk tid =
      (Except.error "not a pending or cash transaction",
       [MintRequest.read "listSplitTransactions.xevent"]) := by
    simp [delete_transaction, hl, hp, hacc]
  refine ⟨⟨"not a pending or cash transaction", hrun⟩, ?_⟩
  intro r hr
  rw [hrun] at hr
  simp at hr
  rw [hr]
  rfl


/-- C3 counterexample: deleting a non-pending, non-cash transaction does
raise the validation error, but the request log is not empty, refuting
the claim that no network request is issued: the transaction fetch went
out before the guard fired. -/
theorem c3_counterexample :
    delete_transaction c3Lookup true "12345" =
      (Except.error "not a pending or cash transaction",
       [MintRequest.read "listSplitTransactions.xevent"]) ∧
    [MintRequest.read "listSplitTransactions.xevent"] ≠ ([] : List MintRequest) := by
  constructor
  · decide
  · decide

/-- Witness for C3: the amended theorem applied to a concrete lookup and
transaction id. -/
theorem c3_witness :
    (∃ e, delete_transaction c3Lookup true "99" =
      (Except.error e, [MintRequest.read "listSplitTransactions.xevent"])) ∧
    ∀ r ∈ (delete_transaction c3Lookup true "99").2, r.isMutate = false :=
  c3_delete_guard_no_mutating_request c3Lookup true "99"
    { isPending := false, account := "Checking" } rfl rfl (by decide)

/-- C4, amended: the memo caches are invalidated after every fresh login
(a listing right after login returns the fresh server data), but the
mutating category and tag operations do not invalidate them: when a value
is cached, a listing call after the mutation still returns that
pre-mutation value. -/
theorem c4_cache_invalidation :
    (∀ (s : CacheState) (serverCats : List Category) (serverTags : List String),
      (get_categories_cached serverCats (login_cache_effect s)).1 = serverCats ∧
      (get_tags_cached serverTags (login_cache_effect s)).1 = serverTags) ∧
    (∀ (s : CacheState) (v srv1 srv2 : List Category),
      s.categoriesCache = some v →
      (get_categories_cached srv2 (create_category_cache_effect srv1 s)).1 = v ∧
      (get_categories_cached srv2 (rename_category_cache_effect srv1 s)).1 = v ∧
      (get_categories_cached srv2 (delete_category_cache_effect srv1 s)).1 = v) ∧
    (∀ (s : CacheState) (v srv1 srv2 : List String),
      s.tagsCache = some v →
      (get_tags_cached srv2 (create_tag_cache_effect srv1 s)).1 = v) := by
  refine ⟨fun s sc st => ⟨rfl, rfl⟩, ?_, ?_⟩
  · intro s v srv1 srv2 h
    refine ⟨?_, ?_, ?_⟩ <;>
      simp [get_categories_cached, create_category_cache_effect,
        rename_category_cache_effect, delete_category_cache_effect, h]
  · intro s v srv1 srv2 h
    simp [get_tags_cached, create_tag_cache_effect, h]




/-- C4 counterexample: after a category mutation, a listing call returns
the pre-mutation cached value [c4CatOld] even though the server listing
has changed, refuting the claim that no listing after a mutation can
return the pre-mutation cached value. -/
theorem c4_counterexample :
    (get_categories_cached [c4CatOld, c4CatNew]
      (create_category_cache_effect [c4CatOld] c4State)).1 = [c4CatOld] ∧
    [c4CatOld] ≠ [c4CatOld, c4CatNew] := by
  constructor
  · decide
  · decide

/-- Witness for C4: the amended theorem applied to the concrete cached
session. -/
theorem c4_witness :
    (get_categories_cached [] (login_cache_effect c4State)).1 = ([] : List Category) ∧
    (get_categories_cached [c4CatNew] (create_category_cache_effect [c4CatOld] c4State)).1 =
      [c4CatOld] :=
  ⟨(c4_cache_invalidation.1 c4State [] []).1,
   (c4_cache_invalidation.2.1 c4State [c4CatOld] [c4CatOld] [c4CatNew] rfl).1⟩

/-- List.getD on an index inside the left part of an appended list ignores
the right part. -/
theorem getD_append_left_of_lt {α : Type} (l l2 : List α) (i : Nat) (d : α)
    (h : i < l.length) : (l ++ l2).getD i d = l.getD i d := by
  induction l generalizing i with
  | nil => simp at h
  | cons x xs ih =>
    cases i with
    | zero => rfl
    | succ n => exact ih n (by simpa using h)

/-- List.getD after setting the same in-bounds index returns the value
set. -/
theorem getD_set_self_of_lt {α : Type} (l : List α) (i : Nat) (a d : α)
    (h : i < l.length) : (l.set i a).getD i d = a := by
  induction l generalizing i with
  | nil => simp at h
  | cons x xs ih =>
    cases i with
    | zero => rfl
    | succ n => exact ih n (by simpa using h)

/-- C5: the cookie guard of _get_financial_provider_response does not
restore the pre-call cookies.  prev_cookies binds a reference to the live
jar object, the remote mutation lands in that same object, and
_init_session reinstalls that object, so for every in-bounds session the
post-call cookies equal the mutated jar; concretely, a cookie planted by
the remote service during the call is still present afterwards and the
jar differs from its pre-call state. -/
theorem c5_cookie_restore_aliased :
    (∀ (s : SessionHeap) (m : CookieJar → CookieJar), s.sessionJar < s.jars.length →
      jarAt (_get_financial_provider_response m s) = m (jarAt s)) ∧
    jarAt (_get_financial_provider_response
      (fun jar => ("corrupt", "x") :: jar) c5Session) =
      [("corrupt", "x"), ("sid", "abc")] ∧
    jarAt (_get_financial_provider_response
      (fun jar => ("corrupt", "x") :: jar) c5Session) ≠ jarAt c5Session := by
  refine ⟨?_, by decide, by decide⟩
  intro s m h
  show ((s.jars.set s.sessionJar (m (jarAt s))) ++ [[]]).getD s.sessionJar [] = m (jarAt s)
  rw [getD_append_left_of_lt _ _ _ _ (by simpa using h)]
  exact getD_set_self_of_lt _ _ _ _ h

/-- Witness for C5: the aliasing theorem applied to the concrete session
and a mutation appending one cookie. -/
theorem c5_witness :
    jarAt (_get_financial_provider_response
      (fun jar => jar ++ [("new", "1")]) c5Session) =
      jarAt c5Session ++ [("new", "1")] :=
  c5_cookie_restore_aliased.1 c5Session (fun jar => jar ++ [("new", "1")]) (by decide)

set_option maxRecDepth 8000 in
/-- C6: the pagination generator, started at any caller-supplied offset:
a page with zero rows ends the run with that single terminating request
and nothing more is issued; a nonempty page contributes its rows, in
order, before whatever the continuation at the offset advanced by the
page length yields, adding one request; and on server pages of sizes 100,
100, 37 and 0 the run yields exactly the 237 records in order using
exactly 4 requests. -/
theorem c6_pagination :
    (∀ (server : Nat → List Nat) (fuel offset : Nat), server offset = [] →
      _get_jsondata_response_generator server (fuel + 1) offset = ([], 1)) ∧
    (∀ (server : Nat → List Nat) (fuel offset : Nat), server offset ≠ [] →
      _get_jsondata_response_generator server (fuel + 1) offset =
        (server offset ++
          (_get_jsondata_response_generator server fuel
            (offset + (server offset).length)).1,
         (_get_jsondata_response_generator server fuel
            (offset + (server offset).length)).2 + 1)) ∧
    _get_jsondata_response_generator pagesServer 5 0 = (List.range 237, 4) := by
  refine ⟨?_, ?_, by decide⟩
  · intro server fuel offset h
    simp [_get_jsondata_response_generator, h]
  · intro server fuel offset h
    simp [_get_jsondata_response_generator, h]

/-- Witness for C6: both page-step laws applied at concrete offsets of the
concrete four-page server. -/
theorem c6_witness :
    _get_jsondata_response_generator pagesServer 1 237 = ([], 1) ∧
    _get_jsondata_response_generator pagesServer 3 200 =
      (pagesServer 200 ++
        (_get_jsondata_response_generator pagesServer 2 (200 + (pagesServer 200).length)).1,
       (_get_jsondata_response_generator pagesServer 2 (200 + (pagesServer 200).length)).2 + 1) :=
  ⟨c6_pagination.1 pagesServer 0 237 (by decide),
   c6_pagination.2.1 pagesServer 2 200 (by decide)⟩

/-- C7, amended: the two failure kinds of a resource call are always
distinguishable, but expiry is only detected on failing responses: a
failing response (bad status, or wrong content type when JSON is
expected) whose lowercased body contains the phrase session has expired
raises MintSessionExpiredException, any other failing response raises the
generic RuntimeError, and every non-failing response is handed to JSON
parsing regardless of its body, so a successful response carrying the
expiry phrase raises neither. -/
theorem c7_error_classification :
    (∀ (expect_json : Bool) (r : HttpResponse),
      (r.status != 200 || (expect_json && !isJsonContentType r.contentType)) = true →
      containsSubstr "session has expired" (lowerAscii r.body) = true →
      _get_json_response expect_json r = JsonResult.sessionExpired) ∧
    (∀ (expect_json : Bool) (r : HttpResponse),
      (r.status != 200 || (expect_json && !isJsonContentType r.contentType)) = true →
      containsSubstr "session has expired" (lowerAscii r.body) = false →
      _get_json_response expect_json r = JsonResult.requestError) ∧
    (∀ (expect_json : Bool) (r : HttpResponse),
      (r.status != 200 || (expect_json && !isJsonContentType r.contentType)) = false →
      _get_json_response expect_json r = JsonResult.parsed r.body) ∧
    JsonResult.sessionExpired ≠ JsonResult.requestError ∧
    (∀ t : String, JsonResult.sessionExpired ≠ JsonResult.parsed t ∧
      JsonResult.requestError ≠ JsonResult.parsed t) := by
  refine ⟨?_, ?_, ?_, by simp, by simp⟩
  · intro expect_json r h1 h2
    simp [_get_json_response, h1, h2]
  · intro expect_json r h1 h2
    simp [_get_json_response, h1, h2]
  · intro expect_json r h1
    simp [_get_json_response, h1]

/-- C7 counterexample: a successful JSON response whose body contains the
expiry phrase (so, per the claim, it indicates session expiry by the
substring match) does not raise MintSessionExpiredException: the call
parses it as a normal response. -/
theorem c7_counterexample :
    containsSubstr "session has expired" (lowerAscii c7OkExpiredResponse.body) = true ∧
    _get_json_response true c7OkExpiredResponse ≠ JsonResult.sessionExpired := by
  exact ⟨by decide, by decide⟩

/-- Witness for C7: the classification applied to a concrete failing
expired response, a concrete failing other response, and a concrete
successful response. -/
theorem c7_witness :
    _get_json_response true c7FailingExpiredResponse = JsonResult.sessionExpired ∧
    _get_json_response true c7FailingOtherResponse = JsonResult.requestError ∧
    _get_json_response true c7OkJsonResponse = JsonResult.parsed "[]" :=
  ⟨c7_error_classification.1 true c7FailingExpiredResponse (by decide) (by decide),
   c7_error_classification.2.1 true c7FailingOtherResponse (by decide) (by decide),
   c7_error_classification.2.2.1 true c7OkJsonResponse (by decide)⟩

/-- List.find? is the head of the filtered list. -/
theorem find?_eq_head?_filter {α : Type} (l : List α) (p : α → Bool) :
    l.find? p = (l.filter p).head? := by
  induction l with
  | nil => rfl
  | cons a t ih =>
    cases h : p a with
    | true =>
      rw [List.find?_cons_of_pos _ h, List.filter_cons_of_pos h]
      rfl
    | false =>
      have h2 : ¬ p a = true := by
        rw [h]
        exact Bool.false_ne_true
      rw [List.find?_cons_of_neg _ h2, List.filter_cons_of_neg h2, ih]

/-- String.intercalate of a single piece is that piece. -/
theorem intercalate_singleton (sep x : String) : String.intercalate sep [x] = x := rfl

/-- C8: category name resolution.  With no parent name given and more than
one category of the requested name, it fails with the ambiguity error;
with a parent name given and exactly one category carrying the requested
name under that parent (and a nonzero id, since the Python truthiness test
treats the id 0 as missing), it returns that category's id; with no
category of the requested name at all, it fails with the does-not-exist
error. -/
theorem c8_category_name_to_id :
    (∀ (cats : List Category) (nm : String),
      1 < (cats.filter (fun c => c.name == nm)).length →
      category_name_to_id cats nm none = Except.error CategoryError.ambiguous) ∧
    (∀ (cats : List Category) (nm p : String) (c : Category),
      (cats.filter (fun c => c.name == nm)).filter (fun c => c.parentName == p) = [c] →
      c.id ≠ 0 →
      category_name_to_id cats nm (some p) = Except.ok c.id) ∧
    (∀ (cats : List Category) (nm : String) (parent : Option String),
      cats.filter (fun c => c.name == nm) = [] →
      category_name_to_id cats nm parent = Except.error CategoryError.notExist) := by
  refine ⟨?_, ?_, ?_⟩
  · intro cats nm hlen
    have hcond : (((none : Option String).isNone &&
        decide (1 < (cats.filter (fun c => c.name == nm)).length))) = true := by
      simp [hlen]
    simp only [category_name_to_id, hcond, if_true]
  · intro cats nm p c hf hid
    have hpred : (fun x : Category => (some p : Option String).isNone ||
        (some x.parentName == some p)) = (fun x : Category => x.parentName == p) := by
      funext x
      simp
    have hfind : (cats.filter (fun c => c.name == nm)).find? (fun x =>
        (some p : Option String).isNone || (some x.parentName == some p)) = some c := by
      rw [hpred, find?_eq_head?_filter, hf]
      rfl
    simp only [category_name_to_id]
    rw [hfind]
    simp [beq_eq_false_iff_ne.mpr hid]
  · intro cats nm parent hf
    simp only [category_name_to_id, hf]
    simp [List.find?]

/-- Witness for C8: the resolution theorem applied to a concrete listing
with two Transfer categories. -/
theorem c8_witness :
    category_name_to_id c8Categories "Transfer" none =
      Except.error CategoryError.ambiguous ∧
    category_name_to_id c8Categories "Transfer" (some "Root2") = Except.ok 12 ∧
    category_name_to_id c8Categories "Nope" none =
      Except.error CategoryError.notExist :=
  ⟨c8_category_name_to_id.1 c8Categories "Transfer" (by decide),
   c8_category_name_to_id.2.1 c8Categories "Transfer" "Root2" c8Transfer2
     (by decide) (by decide),
   c8_category_name_to_id.2.2 c8Categories "Nope" none (by decide)⟩

/-- C9: category mutation guards.  rename_category and delete_category,
applied to any category id below 10000, fail and issue no mutating
request (whether or not the id occurs in the listing, the error is
raised first); create_category fails and issues no mutating request
whenever its designated parent does not resolve to a depth-1 category;
and conversely any run of create_category that did issue a mutating
request had a depth-1 parent, so only non-top-level nodes are ever
created. -/
theorem c9_category_mutation_guards :
    (∀ (cats : List Category) (resp : Option Nat) (id : Nat) (nm : String),
      id < 10000 →
      (rename_category cats resp id nm).1.isOk = false ∧
      (rename_category cats resp id nm).2 = []) ∧
    (∀ (cats : List Category) (resp : Option Nat) (id : Nat),
      id < 10000 →
      (delete_category cats resp id).1.isOk = false ∧
      (delete_category cats resp id).2 = []) ∧
    (∀ (cats : List Category) (resp : Option Nat) (nm : String) (pid : Nat),
      (∀ parent, _get_category_by_id cats pid = some parent → parent.depth ≠ 1) →
      (create_category cats resp nm pid).1.isOk = false ∧
      (create_category cats resp nm pid).2 = []) ∧
    (∀ (cats : List Category) (resp : Option Nat) (nm : String) (pid : Nat),
      (create_category cats resp nm pid).2 ≠ [] →
      ∃ parent, _get_category_by_id cats pid = some parent ∧ parent.depth = 1) := by
  refine ⟨?_, ?_, ?_, ?_⟩
  · intro cats resp id nm hlt
    cases h : _get_category_by_id cats id with
    | none => simp [rename_category, h, Except.isOk, Except.toBool]
    | some cat => simp [rename_category, h, hlt, Except.isOk, Except.toBool]
  · intro cats resp id hlt
    cases h : _get_category_by_id cats id with
    | none => simp [delete_category, h, Except.isOk, Except.toBool]
    | some cat => simp [delete_category, h, hlt, Except.isOk, Except.toBool]
  · intro cats resp nm pid hshallow
    cases h : _get_category_by_id cats pid with
    | none => simp [create_category, h, Except.isOk, Except.toBool]
    | some parent =>
      simp [create_category, h, hshallow parent h, Except.isOk, Except.toBool]
  · intro cats resp nm pid hne
    cases h : _get_category_by_id cats pid with
    | none => simp [create_category, h] at hne
    | some parent =>
      by_cases hd : parent.depth = 1
      · exact ⟨parent, rfl, hd⟩
      · simp [create_category, h, hd] at hne

/-- Witness for C9: the guard theorem applied to a concrete listing with
one system category of id 708 and depth 2. -/
theorem c9_witness :
    ((rename_category c9Categories (some 123) 708 "NewName").1.isOk = false ∧
      (rename_category c9Categories (some 123) 708 "NewName").2 = []) ∧
    ((delete_category c9Categories (some 123) 708).1.isOk = false ∧
      (delete_category c9Categories (some 123) 708).2 = []) ∧
    ((create_category c9Categories (some 123) "Kid" 708).1.isOk = false ∧
      (create_category c9Categories (some 123) "Kid" 708).2 = []) :=
  ⟨c9_category_mutation_guards.1 c9Categories (some 123) 708 "NewName" (by decide),
   c9_category_mutation_guards.2.1 c9Categories (some 123) 708 (by decide),
   c9_category_mutation_guards.2.2.1 c9Categories (some 123) "Kid" 708
     (by decide)⟩

/-- C10: in each of update_transaction, split_transaction,
delete_transaction and get_transaction_by_id, a transaction id without a
colon gets the cash/credit suffix appended, and an id already carrying a
colon passes through unchanged (for update_transaction, as the sole
element of the comma-joined txnId field). -/
theorem c10_txn_id_normalization :
    ∀ s : String,
      (s.toList.contains ':' = false →
        update_transaction_txnId [s] = s ++ ":0" ∧
        split_transaction_fullTransId s = s ++ ":0" ∧
        delete_transaction_fullId s = s ++ ":0" ∧
        get_transaction_by_id_fullTransId s = s ++ ":0") ∧
      (s.toList.contains ':' = true →
        update_transaction_txnId [s] = s ∧
        split_transaction_fullTransId s = s ∧
        delete_transaction_fullId s = s ∧
        get_transaction_by_id_fullTransId s = s) := by
  intro s
  constructor
  · intro h
    have hm : ':' ∉ s.data := by simpa using h
    refine ⟨?_, ?_, ?_, ?_⟩ <;>
      simp [update_transaction_txnId, split_transaction_fullTransId,
        delete_transaction_fullId, get_transaction_by_id_fullTransId,
        intercalate_singleton, hm]
  · intro h
    have hm : ':' ∈ s.data := by simpa using h
    refine ⟨?_, ?_, ?_, ?_⟩ <;>
      simp [update_transaction_txnId, split_transaction_fullTransId,
        delete_transaction_fullId, get_transaction_by_id_fullTransId,
        intercalate_singleton, hm]

/-- Witness for C10: the normalization theorem applied to a bare numeric
id and to an id already carrying an investment type suffix. -/
theorem c10_witness :
    (update_transaction_txnId ["123"] = "123" ++ ":0" ∧
      split_transaction_fullTransId "123" = "123" ++ ":0" ∧
      delete_transaction_fullId "123" = "123" ++ ":0" ∧
      get_transaction_by_id_fullTransId "123" = "123" ++ ":0") ∧
    (update_transaction_txnId ["45:1"] = "45:1" ∧
      split_transaction_fullTransId "45:1" = "45:1" ∧
      delete_transaction_fullId "45:1" = "45:1" ∧
      get_transaction_by_id_fullTransId "45:1" = "45:1") :=
  ⟨(c10_txn_id_normalization "123").1 (by decide),
   (c10_txn_id_normalization "45:1").2 (by decide)⟩

end Yamintapi
